import Mathlib

/-!
Verification of the cache-and-dispatch core of the Text Intelligence API.

Shallow embedding of `src/app.py` (FastAPI + Redis + RQ text-processing
service).  Pure helpers (`sha256_text`, `cache_key_for_input`) are embedded
directly; the Redis key-value store and the RQ job store are modelled as
explicit state threaded through the endpoint handlers; the opaque inference
pipelines (external collaborators) are parameters returning `Except`.
-/

set_option autoImplicit false

namespace FixItApp

/-! ## SHA-256 (embedding of Python's `hashlib.sha256(...).hexdigest()`)

Machine words are `Nat` reduced modulo `2 ^ 32`; bytes are `Nat` below 256. -/

/-- Truncate to a 32-bit word. -/
def w32 (n : Nat) : Nat := n % 4294967296

/-- Truncate to a byte. -/
def w8 (n : Nat) : Nat := n % 256

/-- Right rotation of a 32-bit word by `k` bits. -/
def rotr (k x : Nat) : Nat := w32 ((x >>> k) ||| (x <<< (32 - k)))

def bigSigma0 (x : Nat) : Nat := (rotr 2 x) ^^^ (rotr 13 x) ^^^ (rotr 22 x)

def bigSigma1 (x : Nat) : Nat := (rotr 6 x) ^^^ (rotr 11 x) ^^^ (rotr 25 x)

def smallSigma0 (x : Nat) : Nat := (rotr 7 x) ^^^ (rotr 18 x) ^^^ (x >>> 3)

def smallSigma1 (x : Nat) : Nat := (rotr 17 x) ^^^ (rotr 19 x) ^^^ (x >>> 10)

def chFn (e f g : Nat) : Nat := (e &&& f) ^^^ ((e ^^^ 4294967295) &&& g)

def majFn (a b c : Nat) : Nat := (a &&& b) ^^^ (a &&& c) ^^^ (b &&& c)

/-- The 64 SHA-256 round constants (FIPS 180-4, in decimal). -/
def K : List Nat :=
  [1116352408, 1899447441, 3049323471, 3921009573, 961987163,
   1508970993, 2453635748, 2870763221, 3624381080, 310598401,
   607225278, 1426881987, 1925078388, 2162078206, 2614888103,
   3248222580, 3835390401, 4022224774, 264347078, 604807628,
   770255983, 1249150122, 1555081692, 1996064986, 2554220882,
   2821834349, 2952996808, 3210313671, 3336571891, 3584528711,
   113926993, 338241895, 666307205, 773529912, 1294757372,
   1396182291, 1695183700, 1986661051, 2177026350, 2456956037,
   2730485921, 2820302411, 3259730800, 3345764771, 3516065817,
   3600352804, 4094571909, 275423344, 430227734, 506948616,
   659060556, 883997877, 958139571, 1322822218, 1537002063,
   1747873779, 1955562222, 2024104815, 2227730452, 2361852424,
   2428436474, 2756734187, 3204031479, 3329325298]

/-- The SHA-256 initial hash value (FIPS 180-4, in decimal). -/
def H0 : List Nat :=
  [1779033703, 3144134277, 1013904242, 2773480762,
   1359893119, 2600822924, 528734635, 1541459225]

/-- Big-endian 8-byte encoding of a 64-bit length value. -/
def be64 (n : Nat) : List Nat :=
  [w8 (n >>> 56), w8 (n >>> 48), w8 (n >>> 40), w8 (n >>> 32),
   w8 (n >>> 24), w8 (n >>> 16), w8 (n >>> 8), w8 n]

/-- SHA-256 padding: a `0x80` byte, zeros to 56 mod 64, then the bit length. -/
def padMsg (msg : List Nat) : List Nat :=
  let l := msg.length
  msg ++ (128 :: List.replicate ((64 - ((l + 9) % 64)) % 64) 0) ++ be64 (8 * l)

/-- Split a byte stream into 64-byte blocks (fuel-based structural recursion;
one unit of fuel per block suffices since each block consumes 64 bytes). -/
def toBlocksAux : Nat → List Nat → List (List Nat)
  | 0, _ => []
  | _, [] => []
  | f + 1, bs => bs.take 64 :: toBlocksAux f (bs.drop 64)

/-- Split a byte stream into 64-byte blocks. -/
def toBlocks (bs : List Nat) : List (List Nat) := toBlocksAux bs.length bs

/-- Group bytes into big-endian 32-bit words. -/
def toWords : List Nat → List Nat
  | b0 :: b1 :: b2 :: b3 :: rest => (((b0 * 256 + b1) * 256 + b2) * 256 + b3) :: toWords rest
  | _ => []

/-- Extend the 16 block words with `fuel` further schedule words. -/
def extendW (ws : List Nat) : Nat → List Nat
  | 0 => ws
  | f + 1 =>
    let t := ws.length
    extendW (ws ++ [w32 (smallSigma1 (ws.getD (t - 2) 0) + ws.getD (t - 7) 0 +
      smallSigma0 (ws.getD (t - 15) 0) + ws.getD (t - 16) 0)]) f

/-- One SHA-256 compression round on the working state `[a,b,c,d,e,f,g,h]`. -/
def step (st : List Nat) (k w : Nat) : List Nat :=
  let a := st.getD 0 0
  let b := st.getD 1 0
  let c := st.getD 2 0
  let d := st.getD 3 0
  let e := st.getD 4 0
  let f := st.getD 5 0
  let g := st.getD 6 0
  let h := st.getD 7 0
  let t1 := w32 (h + bigSigma1 e + chFn e f g + k + w)
  let t2 := w32 (bigSigma0 a + majFn a b c)
  [w32 (t1 + t2), a, b, c, w32 (d + t1), e, f, g]

/-- Compress one 64-byte block into the running hash value. -/
def compress (hs : List Nat) (block : List Nat) : List Nat :=
  let ws := extendW (toWords block) 48
  let st := (K.zip ws).foldl (fun s p => step s p.1 p.2) hs
  (hs.zip st).map (fun p => w32 (p.1 + p.2))

/-- SHA-256 of a byte stream, as the final eight 32-bit hash words. -/
def sha256Words (msg : List Nat) : List Nat :=
  (toBlocks (padMsg msg)).foldl compress H0

/-- Lowercase hexadecimal digit for a nibble. -/
def hexDigit (n : Nat) : Char :=
  if n < 10 then Char.ofNat (48 + n) else Char.ofNat (87 + n)

/-- Eight lowercase hex characters of a 32-bit word, most significant first. -/
def toHex8 (w : Nat) : List Char :=
  [hexDigit (w / 268435456 % 16), hexDigit (w / 16777216 % 16),
   hexDigit (w / 1048576 % 16), hexDigit (w / 65536 % 16),
   hexDigit (w / 4096 % 16), hexDigit (w / 256 % 16),
   hexDigit (w / 16 % 16), hexDigit (w % 16)]

/-- UTF-8 encoding of one character, as bytes. -/
def utf8Encode (c : Char) : List Nat :=
  let n := c.toNat
  if n < 128 then [n]
  else if n < 2048 then [192 ||| (n >>> 6), 128 ||| (n &&& 63)]
  else if n < 65536 then
    [224 ||| (n >>> 12), 128 ||| ((n >>> 6) &&& 63), 128 ||| (n &&& 63)]
  else
    [240 ||| (n >>> 18), 128 ||| ((n >>> 12) &&& 63),
     128 ||| ((n >>> 6) &&& 63), 128 ||| (n &&& 63)]

/-- UTF-8 bytes of a string (Python's `t.encode("utf-8")`). -/
def strBytes (s : String) : List Nat := s.data.flatMap utf8Encode

/-- Embedding of `sha256_text` from `src/app.py`: hex SHA-256 digest of the UTF-8 bytes. -/
def sha256_text (t : String) : String :=
  ⟨(sha256Words (strBytes t)).flatMap toHex8⟩

/-- Embedding of `cache_key_for_input` from `src/app.py`, the f-string
`"cache:{task}:{extra}:{sha256_text(text)}"` with default `extra = ""`. -/
def cache_key_for_input (text task : String) (extra : String := "") : String :=
  "cache:" ++ task ++ ":" ++ extra ++ ":" ++ sha256_text text

/-! ## Result Cache (boundary model of the Redis key-value store)

An association list of `(key, value, expiry)`; `storeSetex` prepends (so the
newest write shadows older ones, giving Redis overwrite semantics), `storeGet`
returns the newest entry for the key when the current time is before its
expiry and `none` otherwise (TTL expiry makes the key logically absent). -/

/-- The shared key-value store: `(key, value, absolute expiry time)` triples,
newest first. -/
abbrev Store := List (String × String × Nat)

/-- Model of `redis_conn.get(key)` at time `now`: newest entry for `key`,
unless expired. -/
def storeGet (σ : Store) (now : Nat) (k : String) : Option String :=
  match σ with
  | [] => none
  | (k', v, e) :: rest =>
    if k' = k then (if now < e then some v else none) else storeGet rest now k

/-- Model of `redis_conn.setex(key, ttl, value)` at time `now`. -/
def storeSetex (σ : Store) (now : Nat) (k : String) (ttl : Nat) (v : String) : Store :=
  (k, v, now + ttl) :: σ

/-- Python truthiness of the `Optional[bytes]` returned by `redis_conn.get`:
`None` and the empty string are both falsy (`if cached:` in the handlers). -/
def truthy : Option String → Bool
  | none => false
  | some s => !s.isEmpty

/-- Embedding of `CACHE_TTL` from `src/app.py` (environment default 86400 seconds). -/
def CACHE_TTL : Nat := 86400

/-! ## Requests, adapters and the synchronous dispatcher -/

/-- The pydantic model `SummarizeRequest`. -/
structure SummarizeRequest where
  text : String
  max_length : Int := 150
  min_length : Int := 25
deriving DecidableEq, Repr

/-- The pydantic model `QARequest`. -/
structure QARequest where
  context : String
  question : String
deriving DecidableEq, Repr

/-- The pydantic model `RewriteRequest`; `tone` is validated against
`{"formal", "informal"}` at the parsing boundary. -/
structure RewriteRequest where
  text : String
  tone : String
deriving DecidableEq, Repr

/-- The opaque per-task inference routines (`summarize_text`,
`answer_question`, `rewrite_tone`), external collaborators that may raise:
an exception is an `Except.error` carrying its message. -/
structure Adapters where
  summarize_text : String → Int → Int → Except String String
  answer_question : String → String → Except String String
  rewrite_tone : String → String → Except String String

/-- Body of a successful synchronous response `{task, cached, result}`. -/
structure SyncResponse where
  task : String
  cached : Bool
  result : String
deriving DecidableEq, Repr

/-- The `/summarize` handler: key → get → hit: return cached; miss: run the
adapter (propagating its failure), `setex` with `CACHE_TTL`, return fresh. -/
def summarize (A : Adapters) (σ : Store) (now : Nat) (req : SummarizeRequest) :
    Except String SyncResponse × Store :=
  let key := cache_key_for_input req.text "summarize"
  let cached := storeGet σ now key
  if truthy cached then (.ok ⟨"summarization", true, cached.getD ""⟩, σ)
  else
    match A.summarize_text req.text req.max_length req.min_length with
    | .error e => (.error e, σ)
    | .ok result => (.ok ⟨"summarization", false, result⟩, storeSetex σ now key CACHE_TTL result)

/-- The `/qa` handler; its key is derived from `context + question`
concatenated with no separator. -/
def qa (A : Adapters) (σ : Store) (now : Nat) (req : QARequest) :
    Except String SyncResponse × Store :=
  let combined_text := req.context ++ req.question
  let key := cache_key_for_input combined_text "qa"
  let cached := storeGet σ now key
  if truthy cached then (.ok ⟨"qa", true, cached.getD ""⟩, σ)
  else
    match A.answer_question req.context req.question with
    | .error e => (.error e, σ)
    | .ok result => (.ok ⟨"qa", false, result⟩, storeSetex σ now key CACHE_TTL result)

/-- The `/rewrite` handler; the tone is the cache-key modifier. -/
def rewrite (A : Adapters) (σ : Store) (now : Nat) (req : RewriteRequest) :
    Except String SyncResponse × Store :=
  let key := cache_key_for_input req.text "rewrite" req.tone
  let cached := storeGet σ now key
  if truthy cached then (.ok ⟨"rewrite", true, cached.getD ""⟩, σ)
  else
    match A.rewrite_tone req.text req.tone with
    | .error e => (.error e, σ)
    | .ok result => (.ok ⟨"rewrite", false, result⟩, storeSetex σ now key CACHE_TTL result)

/-- A parsed synchronous request, one constructor per endpoint. -/
inductive Request where
  | summarize (req : SummarizeRequest)
  | qa (req : QARequest)
  | rewrite (req : RewriteRequest)
deriving DecidableEq, Repr

/-- The synchronous dispatcher: route a parsed request to its handler. -/
def handle (A : Adapters) (σ : Store) (now : Nat) : Request → Except String SyncResponse × Store
  | .summarize r => summarize A σ now r
  | .qa r => qa A σ now r
  | .rewrite r => rewrite A σ now r

/-- The cache key each handler computes for its request. -/
def keyOf : Request → String
  | .summarize r => cache_key_for_input r.text "summarize"
  | .qa r => cache_key_for_input (r.context ++ r.question) "qa"
  | .rewrite r => cache_key_for_input r.text "rewrite" r.tone

/-- The inference call each handler performs on a cache miss. -/
def adapterCall (A : Adapters) : Request → Except String String
  | .summarize r => A.summarize_text r.text r.max_length r.min_length
  | .qa r => A.answer_question r.context r.question
  | .rewrite r => A.rewrite_tone r.text r.tone

/-- The `task` field each handler reports. -/
def taskNameOf : Request → String
  | .summarize _ => "summarization"
  | .qa _ => "qa"
  | .rewrite _ => "rewrite"

/-! ## Raw payloads and the validation boundary

FastAPI/pydantic validates the body of each synchronous endpoint against its
model before the handler runs; `POST /submit/{task_type}` instead declares
`payload: dict` and validates only the `task_type` path parameter. -/

/-- A JSON scalar occurring in the payloads this service consumes. -/
inductive PVal where
  | str (s : String)
  | int (i : Int)
deriving DecidableEq, Repr

/-- An untyped JSON-object payload (a Python `dict`). -/
abbrev Payload := List (String × PVal)

/-- First binding of a field in a payload. -/
def pfind (p : Payload) (k : String) : Option PVal :=
  match p with
  | [] => none
  | (k', v) :: rest => if k' = k then some v else pfind rest k

/-- A required string field, as pydantic checks it. -/
def reqStr (p : Payload) (k : String) : Except String String :=
  match pfind p k with
  | some (.str s) => .ok s
  | some _ => .error ("validation error: " ++ k)
  | none => .error ("field required: " ++ k)

/-- An optional integer field with a default, as pydantic checks it. -/
def optInt (p : Payload) (k : String) (d : Int) : Except String Int :=
  match pfind p k with
  | none => .ok d
  | some (.int n) => .ok n
  | some _ => .error ("validation error: " ++ k)

/-- Pydantic validation of a `/summarize` body. -/
def parseSummarize (p : Payload) : Except String SummarizeRequest := do
  let text ← reqStr p "text"
  let maxL ← optInt p "max_length" 150
  let minL ← optInt p "min_length" 25
  .ok ⟨text, maxL, minL⟩

/-- Pydantic validation of a `/qa` body. -/
def parseQA (p : Payload) : Except String QARequest := do
  let context ← reqStr p "context"
  let question ← reqStr p "question"
  .ok ⟨context, question⟩

/-- Pydantic validation of a `/rewrite` body (`tone` is a
`Literal["formal", "informal"]`). -/
def parseRewrite (p : Payload) : Except String RewriteRequest := do
  let text ← reqStr p "text"
  let tone ← reqStr p "tone"
  if tone = "formal" ∨ tone = "informal" then .ok ⟨text, tone⟩
  else .error "validation error: tone"

/-- The task types admitted by the `Literal["summarize", "qa", "rewrite"]`
path parameter of `/submit/{task_type}`. -/
inductive TaskType where
  | summarize
  | qa
  | rewrite
deriving DecidableEq, Repr

/-- The string form of a task type. -/
def taskTypeStr : TaskType → String
  | .summarize => "summarize"
  | .qa => "qa"
  | .rewrite => "rewrite"

/-- How a request failure is surfaced to the HTTP caller: a pydantic
validation failure is a client error; an adapter exception propagates as a
server-side inference error. -/
inductive ApiError where
  | validation (msg : String)
  | inference (msg : String)
deriving DecidableEq, Repr

/-- Tag a handler outcome with the error category it surfaces as. -/
def liftEP : Except String SyncResponse × Store → Except ApiError SyncResponse × Store
  | (.error e, σ) => (.error (.inference e), σ)
  | (.ok r, σ) => (.ok r, σ)

/-- A full synchronous request: framework validation, then the handler. -/
def fullSync (A : Adapters) (σ : Store) (now : Nat) :
    TaskType → Payload → Except ApiError SyncResponse × Store
  | .summarize, p =>
    match parseSummarize p with
    | .error e => (.error (.validation e), σ)
    | .ok req => liftEP (summarize A σ now req)
  | .qa, p =>
    match parseQA p with
    | .error e => (.error (.validation e), σ)
    | .ok req => liftEP (qa A σ now req)
  | .rewrite, p =>
    match parseRewrite p with
    | .error e => (.error (.validation e), σ)
    | .ok req => liftEP (rewrite A σ now req)

/-- The validation step of `fullSync`, with the parsed value discarded. -/
def validateOnly : TaskType → Payload → Except String Unit
  | .summarize, p => (parseSummarize p).map (fun _ => ())
  | .qa, p => (parseQA p).map (fun _ => ())
  | .rewrite, p => (parseRewrite p).map (fun _ => ())

/-- Embedding of `process_genai_task` from `src/app.py`, the routine the RQ
worker runs: it indexes the untyped payload directly, so a missing or mistyped field
raises (`KeyError`/`TypeError`), and an unknown task type raises
`ValueError`. -/
def process_genai_task (A : Adapters) (task_type : String) (payload : Payload) :
    Except String String :=
  if task_type = "summarize" then do
    let text ← pstr payload "text"
    let maxL ← pint payload "max_length"
    let minL ← pint payload "min_length"
    A.summarize_text text maxL minL
  else if task_type = "qa" then do
    let context ← pstr payload "context"
    let question ← pstr payload "question"
    A.answer_question context question
  else if task_type = "rewrite" then do
    let text ← pstr payload "text"
    let tone ← pstr payload "tone"
    A.rewrite_tone text tone
  else .error ("Unknown task type: " ++ task_type)
where
  /-- Lookup of `payload[k]` used as a string: `KeyError` when absent, a type
  failure downstream when not a string. -/
  pstr (p : Payload) (k : String) : Except String String :=
    match pfind p k with
    | some (.str s) => .ok s
    | some _ => .error ("TypeError: " ++ k)
    | none => .error ("KeyError: " ++ k)
  /-- Lookup of `payload[k]` used as an integer. -/
  pint (p : Payload) (k : String) : Except String Int :=
    match pfind p k with
    | some (.int n) => .ok n
    | some _ => .error ("TypeError: " ++ k)
    | none => .error ("KeyError: " ++ k)

/-! ## Job queue and lifecycle tracker

Boundary model of the external RQ library (spec section 4.4): `enqueue`
creates a job record with a fresh opaque identifier and initial RQ status
"queued"; `Job.fetch` looks the record up and raises when there is none
(modelled as `none`); `job.get_status()` reads the record's status field,
which only the external worker later advances. Fresh identifiers are drawn
from a counter, modelling RQ's unique opaque ids. -/

/-- A job record in the shared RQ store. -/
structure JobRec where
  task : String
  payload : Payload
  status : String
  result : Option String
deriving DecidableEq, Repr

/-- The shared RQ job store plus the fresh-identifier source. -/
structure JobState where
  jobs : List (String × JobRec)
  next : Nat
deriving DecidableEq, Repr

/-- The opaque identifier issued for the `n`-th submission. -/
def mkJobId (n : Nat) : String := "job-" ++ toString n

/-- Model of `Job.fetch(job_id)`: `none` models the `NoSuchJobError` it raises when
the store has no record (never issued, or expired/evicted). -/
def fetchJob (js : JobState) (id : String) : Option JobRec :=
  go js.jobs
where
  go : List (String × JobRec) → Option JobRec
    | [] => none
    | (id', j) :: rest => if id' = id then some j else go rest

/-- Model of `queue.enqueue(process_genai_task, task_type, payload)`: bind the task
and payload to a fresh identifier with RQ status "queued"; nothing is
executed. -/
def enqueue (js : JobState) (task : String) (p : Payload) : String × JobState :=
  let id := mkJobId js.next
  (id, ⟨(id, ⟨task, p, "queued", none⟩) :: js.jobs, js.next + 1⟩)

/-- Body of the `/submit/{task_type}` response. -/
structure SubmitResponse where
  job_id : String
  status : String
deriving DecidableEq, Repr

/-- The `/submit/{task_type}` handler: enqueue the untyped payload, write the
`job:{id}:status` key with TTL 3600, and reply "queued" immediately. -/
def submit_job (σ : Store) (now : Nat) (js : JobState) (task_type : TaskType)
    (payload : Payload) : SubmitResponse × Store × JobState :=
  let r := enqueue js (taskTypeStr task_type) payload
  let σ' := storeSetex σ now ("job:" ++ r.1 ++ ":status") 3600 "queued"
  (⟨r.1, "queued"⟩, σ', r.2)

/-- Body of the `/status/{job_id}` response. -/
structure StatusResponse where
  job_id : String
  status : String
deriving DecidableEq, Repr

/-- The `/status/{job_id}` handler: `Job.fetch`, with any fetch failure
collapsed to the status value "unknown". -/
def job_status (js : JobState) (job_id : String) : StatusResponse :=
  match fetchJob js job_id with
  | none => ⟨job_id, "unknown"⟩
  | some j => ⟨job_id, j.status⟩

/-- An `HTTPException` as raised by the handlers. -/
structure HttpError where
  status_code : Nat
  detail : String
deriving DecidableEq, Repr

/-- Body of the `/result/{job_id}` response. -/
structure ResultResponse where
  job_id : String
  status : String
  result : Option String
deriving DecidableEq, Repr

/-- The `/result/{job_id}` handler: a fetch failure is a 404, a finished job
carries its result, any other job reports its bare status. -/
def job_result (js : JobState) (job_id : String) : Except HttpError ResultResponse :=
  match fetchJob js job_id with
  | none => .error ⟨404, "Job not found"⟩
  | some j =>
    if j.status = "finished" then .ok ⟨job_id, "finished", j.result⟩
    else .ok ⟨job_id, j.status, none⟩

/-! ## Helper lemmas -/

theorem storeGet_head (σ : Store) (now : Nat) (k v : String) (e : Nat) :
    storeGet ((k, v, e) :: σ) now k = if now < e then some v else none := by
  simp [storeGet]

theorem storeGet_setex_self (σ : Store) (now t : Nat) (k : String) (ttl : Nat) (v : String) :
    storeGet (storeSetex σ now k ttl v) t k = if t < now + ttl then some v else none := by
  simp [storeSetex, storeGet]

theorem storeGet_setex_other (σ : Store) (now t : Nat) (k k' : String) (ttl : Nat)
    (v : String) (h : k' ≠ k) :
    storeGet (storeSetex σ now k ttl v) t k' = storeGet σ t k' := by
  simp [storeSetex, storeGet, h.symm]

theorem handle_hit (A : Adapters) (σ : Store) (now : Nat) (req : Request)
    (h : truthy (storeGet σ now (keyOf req)) = true) :
    handle A σ now req =
      (.ok ⟨taskNameOf req, true, (storeGet σ now (keyOf req)).getD ""⟩, σ) := by
  cases req <;> simp_all [handle, summarize, qa, rewrite, keyOf, taskNameOf]

theorem handle_miss_ok (A : Adapters) (σ : Store) (now : Nat) (req : Request) (r : String)
    (h1 : truthy (storeGet σ now (keyOf req)) = false)
    (h2 : adapterCall A req = .ok r) :
    handle A σ now req =
      (.ok ⟨taskNameOf req, false, r⟩, storeSetex σ now (keyOf req) CACHE_TTL r) := by
  cases req <;> simp_all [handle, summarize, qa, rewrite, keyOf, taskNameOf, adapterCall]

theorem handle_miss_err (A : Adapters) (σ : Store) (now : Nat) (req : Request) (e : String)
    (h1 : truthy (storeGet σ now (keyOf req)) = false)
    (h2 : adapterCall A req = .error e) :
    handle A σ now req = (.error e, σ) := by
  cases req <;> simp_all [handle, summarize, qa, rewrite, keyOf, adapterCall]

theorem toHex8_length (w : Nat) : (toHex8 w).length = 8 := rfl

theorem flatMap_toHex8_length (l : List Nat) : (l.flatMap toHex8).length = 8 * l.length := by
  induction l with
  | nil => rfl
  | cons a t ih => simp [List.flatMap_cons, List.length_append, ih, toHex8_length]; ring

theorem step_length (st : List Nat) (k w : Nat) : (step st k w).length = 8 := rfl

theorem foldl_step_length (l : List (Nat × Nat)) (st : List Nat) (h : st.length = 8) :
    (l.foldl (fun s p => step s p.1 p.2) st).length = 8 := by
  induction l generalizing st with
  | nil => simpa using h
  | cons a t ih => exact ih _ (step_length _ _ _)

theorem compress_length (hs b : List Nat) (h : hs.length = 8) :
    (compress hs b).length = 8 := by
  simp [compress, List.length_zip, foldl_step_length _ hs h, h]

theorem foldl_compress_length (bl : List (List Nat)) (hs : List Nat) (h : hs.length = 8) :
    (bl.foldl compress hs).length = 8 := by
  induction bl generalizing hs with
  | nil => simpa using h
  | cons a t ih => exact ih _ (compress_length _ _ h)

theorem sha256Words_length (msg : List Nat) : (sha256Words msg).length = 8 :=
  foldl_compress_length _ _ rfl

theorem sha256_text_length (t : String) : (sha256_text t).length = 64 := by
  show ((sha256Words (strBytes t)).flatMap toHex8).length = 64
  rw [flatMap_toHex8_length, sha256Words_length]

/-- A lowercase hexadecimal character. -/
def isHexChar (c : Char) : Bool :=
  ('0' ≤ c && c ≤ '9') || ('a' ≤ c && c ≤ 'f')

theorem hexDigit_isHexChar (n : Nat) (h : n < 16) : isHexChar (hexDigit n) = true := by
  interval_cases n <;> decide

theorem toHex8_isHexChar (w : Nat) (c : Char) (h : c ∈ toHex8 w) : isHexChar c = true := by
  simp [toHex8] at h
  rcases h with h | h | h | h | h | h | h | h <;>
    (subst h; exact hexDigit_isHexChar _ (Nat.mod_lt _ (by decide)))

theorem sha256_text_isHexChar (t : String) (c : Char) (h : c ∈ (sha256_text t).data) :
    isHexChar c = true := by
  have h' : c ∈ (sha256Words (strBytes t)).flatMap toHex8 := h
  rw [List.mem_flatMap] at h'
  obtain ⟨w, _, hc⟩ := h'
  exact toHex8_isHexChar w c hc

/-! ## Claim theorems -/

/-- Test fixture: adapters that always succeed with the same string. -/
def constAdapters (s : String) : Adapters :=
  ⟨fun _ _ _ => .ok s, fun _ _ => .ok s, fun _ _ => .ok s⟩

/-- Test fixture: adapters that always raise. -/
def failAdapters (e : String) : Adapters :=
  ⟨fun _ _ _ => .error e, fun _ _ => .error e, fun _ _ => .error e⟩

/-- Test fixture: a concrete summarization request. -/
def rqS : Request := .summarize ⟨"The quick brown fox", 50, 10⟩

/-- C2: on a cache miss whose inference call raises, the failure propagates
and the cache is untouched, so an absent key stays absent. -/
theorem inference_failure_atomic (A : Adapters) (σ : Store) (now : Nat) (req : Request)
    (e : String)
    (h1 : truthy (storeGet σ now (keyOf req)) = false)
    (h2 : adapterCall A req = .error e) :
    handle A σ now req = (.error e, σ) ∧
    liftEP (handle A σ now req) = (.error (.inference e), σ) ∧
    storeGet (handle A σ now req).2 now (keyOf req) = storeGet σ now (keyOf req) ∧
    (storeGet σ now (keyOf req) = none →
      storeGet (handle A σ now req).2 now (keyOf req) = none) := by
  have h := handle_miss_err A σ now req e h1 h2
  rw [h]
  exact ⟨rfl, rfl, rfl, fun hn => hn⟩

theorem inference_failure_atomic_witness :
    handle (failAdapters "boom") [] 0 rqS = (.error "boom", []) ∧
    liftEP (handle (failAdapters "boom") [] 0 rqS) = (.error (.inference "boom"), []) ∧
    storeGet (handle (failAdapters "boom") [] 0 rqS).2 0 (keyOf rqS) = none := by
  have h := inference_failure_atomic (failAdapters "boom") [] 0 rqS "boom" rfl rfl
  exact ⟨h.1, h.2.1, h.2.2.2 rfl⟩

/-- C5: an unresolved job identifier yields the status value "unknown" from
the status endpoint but a 404 error from the result endpoint. -/
theorem status_result_asymmetry (js : JobState) (id : String)
    (h : fetchJob js id = none) :
    job_status js id = ⟨id, "unknown"⟩ ∧
    job_result js id = .error ⟨404, "Job not found"⟩ := by
  simp [job_status, job_result, h]

theorem status_result_asymmetry_witness :
    job_status ⟨[], 0⟩ "nonexistent-id" = ⟨"nonexistent-id", "unknown"⟩ ∧
    job_result ⟨[], 0⟩ "nonexistent-id" = .error ⟨404, "Job not found"⟩ :=
  status_result_asymmetry ⟨[], 0⟩ "nonexistent-id" rfl

/-- C6: a submission enqueues a fresh "queued" record binding the task and
payload, writes the status key with TTL 3600, and replies "queued" with the
new identifier before any worker has acted. -/
theorem submit_contract (σ : Store) (now : Nat) (js : JobState) (tt : TaskType)
    (p : Payload)
    (hfresh : ∀ k, js.next ≤ k → fetchJob js (mkJobId k) = none) :
    (submit_job σ now js tt p).1 = ⟨mkJobId js.next, "queued"⟩ ∧
    fetchJob js (mkJobId js.next) = none ∧
    fetchJob (submit_job σ now js tt p).2.2 (mkJobId js.next) =
      some ⟨taskTypeStr tt, p, "queued", none⟩ ∧
    (submit_job σ now js tt p).2.1 =
      storeSetex σ now ("job:" ++ mkJobId js.next ++ ":status") 3600 "queued" ∧
    storeGet (submit_job σ now js tt p).2.1 now ("job:" ++ mkJobId js.next ++ ":status") =
      some "queued" ∧
    job_status (submit_job σ now js tt p).2.2 (mkJobId js.next) =
      ⟨mkJobId js.next, "queued"⟩ := by
  refine ⟨rfl, hfresh _ le_rfl, ?_, rfl, ?_, ?_⟩
  · simp [submit_job, enqueue, fetchJob, fetchJob.go]
  · show storeGet (storeSetex σ now ("job:" ++ mkJobId js.next ++ ":status") 3600 "queued")
      now ("job:" ++ mkJobId js.next ++ ":status") = some "queued"
    rw [storeGet_setex_self]
    simp
  · simp [job_status, submit_job, enqueue, fetchJob, fetchJob.go]

theorem submit_contract_witness :
    (submit_job [] 0 ⟨[], 0⟩ .qa [("context", .str "c"), ("question", .str "q")]).1 =
      ⟨mkJobId 0, "queued"⟩ ∧
    fetchJob (submit_job [] 0 ⟨[], 0⟩ .qa
        [("context", .str "c"), ("question", .str "q")]).2.2 (mkJobId 0) =
      some ⟨"qa", [("context", .str "c"), ("question", .str "q")], "queued", none⟩ ∧
    job_status (submit_job [] 0 ⟨[], 0⟩ .qa
        [("context", .str "c"), ("question", .str "q")]).2.2 (mkJobId 0) =
      ⟨mkJobId 0, "queued"⟩ := by
  have h := submit_contract [] 0 ⟨[], 0⟩ .qa
    [("context", .str "c"), ("question", .str "q")] (fun k _ => rfl)
  exact ⟨h.1, h.2.2.1, h.2.2.2.2.2⟩

/-- C8: a hit performs zero cache writes; a miss with successful inference
performs exactly one write, of the fresh result under the computed key, and
no other key changes. -/
theorem cache_write_frame (A : Adapters) (σ : Store) (now : Nat) (req : Request) :
    (truthy (storeGet σ now (keyOf req)) = true → (handle A σ now req).2 = σ) ∧
    (∀ r, truthy (storeGet σ now (keyOf req)) = false → adapterCall A req = .ok r →
      (handle A σ now req).2 = storeSetex σ now (keyOf req) CACHE_TTL r ∧
      storeGet (handle A σ now req).2 now (keyOf req) = some r ∧
      ∀ k', k' ≠ keyOf req →
        storeGet (handle A σ now req).2 now k' = storeGet σ now k') := by
  constructor
  · intro h
    rw [handle_hit A σ now req h]
  · intro r h1 h2
    rw [handle_miss_ok A σ now req r h1 h2]
    refine ⟨rfl, ?_, ?_⟩
    · show storeGet (storeSetex σ now (keyOf req) CACHE_TTL r) now (keyOf req) = some r
      rw [storeGet_setex_self]
      simp [CACHE_TTL]
    · intro k' hk
      exact storeGet_setex_other σ now now (keyOf req) k' CACHE_TTL r hk

theorem cache_write_frame_witness :
    (handle (constAdapters "w") [(keyOf rqS, "v", 10)] 0 rqS).2 = [(keyOf rqS, "v", 10)] ∧
    (handle (constAdapters "res") [] 0 rqS).2 = storeSetex [] 0 (keyOf rqS) CACHE_TTL "res" ∧
    storeGet (handle (constAdapters "res") [] 0 rqS).2 0 (keyOf rqS) = some "res" := by
  have htr : truthy (storeGet [(keyOf rqS, "v", 10)] 0 (keyOf rqS)) = true := by
    rw [storeGet_head]
    decide
  have hmiss := (cache_write_frame (constAdapters "res") [] 0 rqS).2 "res" rfl rfl
  exact ⟨(cache_write_frame (constAdapters "w") [(keyOf rqS, "v", 10)] 0 rqS).1 htr,
    hmiss.1, hmiss.2.1⟩

/-- C10: a cached empty string fails the handler's truthiness test, so the
request is treated as a miss: the adapter runs again and the entry is
rewritten; when the adapter again returns the empty string the stored value
stays empty. -/
theorem empty_cached_value_is_miss (A : Adapters) (σ : Store) (now : Nat)
    (req : SummarizeRequest) (r : String)
    (h1 : storeGet σ now (cache_key_for_input req.text "summarize") = some "")
    (h2 : A.summarize_text req.text req.max_length req.min_length = .ok r) :
    summarize A σ now req =
      (.ok ⟨"summarization", false, r⟩,
        storeSetex σ now (cache_key_for_input req.text "summarize") CACHE_TTL r) ∧
    (r = "" →
      storeGet (summarize A σ now req).2 now (cache_key_for_input req.text "summarize") =
        some "") := by
  have htr : truthy (storeGet σ now (cache_key_for_input req.text "summarize")) = false := by
    rw [h1]
    rfl
  have hmain : summarize A σ now req =
      (.ok ⟨"summarization", false, r⟩,
        storeSetex σ now (cache_key_for_input req.text "summarize") CACHE_TTL r) := by
    simp [summarize, htr, h2]
  refine ⟨hmain, fun hr => ?_⟩
  rw [hmain]
  subst hr
  show storeGet (storeSetex σ now (cache_key_for_input req.text "summarize") CACHE_TTL "")
    now (cache_key_for_input req.text "summarize") = some ""
  rw [storeGet_setex_self]
  simp [CACHE_TTL]

theorem empty_cached_value_is_miss_witness :
    summarize (constAdapters "") [(cache_key_for_input "The quick" "summarize", "", 100)] 0
      ⟨"The quick", 50, 10⟩ =
      (.ok ⟨"summarization", false, ""⟩,
        storeSetex [(cache_key_for_input "The quick" "summarize", "", 100)] 0
          (cache_key_for_input "The quick" "summarize") CACHE_TTL "") := by
  have h1 : storeGet [(cache_key_for_input "The quick" "summarize", "", 100)] 0
      (cache_key_for_input "The quick" "summarize") = some "" := by
    rw [storeGet_head]
    decide
  exact (empty_cached_value_is_miss (constAdapters "")
    [(cache_key_for_input "The quick" "summarize", "", 100)] 0 ⟨"The quick", 50, 10⟩ ""
    h1 rfl).1


theorem append_cancel_left_str (a b c : String) (h : a ++ b = a ++ c) : b = c := by
  apply String.ext
  have hd := congrArg String.data h
  simp only [String.data_append] at hd
  exact List.append_cancel_left hd

/-- C1 (amended): after a miss whose inference succeeds with a non-empty
result, every dispatch of the same request before TTL expiry is a hit: it
returns the identical result with `cached = true`, leaves the store
unchanged, and consults no adapter (the second adapter set is arbitrary). -/
theorem cache_hit_idempotent (A : Adapters) (σ : Store) (now : Nat) (req : Request)
    (r : String)
    (h1 : truthy (storeGet σ now (keyOf req)) = false)
    (h2 : adapterCall A req = .ok r)
    (hr : r ≠ "")
    (A' : Adapters) (t : Nat) (hnow : now ≤ t) (ht : t < now + CACHE_TTL) :
    handle A' (handle A σ now req).2 t req =
      (.ok ⟨taskNameOf req, true, r⟩, (handle A σ now req).2) := by
  have hm := handle_miss_ok A σ now req r h1 h2
  rw [hm]
  show handle A' (storeSetex σ now (keyOf req) CACHE_TTL r) t req =
    (.ok ⟨taskNameOf req, true, r⟩, storeSetex σ now (keyOf req) CACHE_TTL r)
  have hget : storeGet (storeSetex σ now (keyOf req) CACHE_TTL r) t (keyOf req) = some r := by
    rw [storeGet_setex_self]
    simp [ht]
  have hre : r.isEmpty = false := by
    cases hie : r.isEmpty
    · rfl
    · exact absurd ((String.isEmpty_iff r).mp hie) hr
  have htr : truthy (storeGet (storeSetex σ now (keyOf req) CACHE_TTL r) t (keyOf req)) = true := by
    rw [hget]
    show (!r.isEmpty) = true
    rw [hre]
    rfl
  rw [handle_hit A' _ t req htr, hget]
  rfl

theorem cache_hit_idempotent_witness :
    adapterCall (constAdapters "sum") rqS = .ok "sum" ∧
    handle (failAdapters "down") (handle (constAdapters "sum") [] 0 rqS).2 5 rqS =
      (.ok ⟨"summarization", true, "sum"⟩, (handle (constAdapters "sum") [] 0 rqS).2) := by
  refine ⟨rfl, ?_⟩
  exact cache_hit_idempotent (constAdapters "sum") [] 0 rqS "sum" rfl rfl (by decide)
    (failAdapters "down") 5 (by omega) (by simp [CACHE_TTL])

/-- C1 (counterexample): when the stored result is the empty string, the
second identical dispatch is not a hit: it reports `cached = false`. -/
theorem cache_hit_idempotent_counterexample :
    (handle (constAdapters "") [] 0 rqS).1 = .ok ⟨"summarization", false, ""⟩ ∧
    (handle (constAdapters "") (handle (constAdapters "") [] 0 rqS).2 0 rqS).1 =
      .ok ⟨"summarization", false, ""⟩ := by
  have h1 := handle_miss_ok (constAdapters "") [] 0 rqS "" rfl rfl
  constructor
  · rw [h1]
    rfl
  · rw [h1]
    show (handle (constAdapters "") (storeSetex [] 0 (keyOf rqS) CACHE_TTL "") 0 rqS).1 =
      .ok ⟨"summarization", false, ""⟩
    have hget : storeGet (storeSetex [] 0 (keyOf rqS) CACHE_TTL "") 0 (keyOf rqS) = some "" := by
      rw [storeGet_setex_self]
      simp [CACHE_TTL]
    have htr : truthy (storeGet (storeSetex [] 0 (keyOf rqS) CACHE_TTL "") 0 (keyOf rqS)) = false := by
      rw [hget]
      rfl
    rw [handle_miss_ok (constAdapters "") _ 0 rqS "" htr rfl]
    rfl

/-- C3: with the fixed task and modifier, distinct contents whose SHA-256
digests differ (the cryptographic no-collision assumption the spec treats as
certain) yield distinct cache keys. -/
theorem cache_key_injective_on_content (task extra c1 c2 : String)
    (h : sha256_text c1 ≠ sha256_text c2) :
    cache_key_for_input c1 task extra ≠ cache_key_for_input c2 task extra := by
  intro he
  apply h
  apply append_cancel_left_str ("cache:" ++ task ++ ":" ++ extra ++ ":")
  simpa [cache_key_for_input, String.append_assoc] using he

set_option maxRecDepth 1000000 in
theorem cache_key_injective_on_content_witness :
    sha256_text "a" ≠ sha256_text "b" ∧
    cache_key_for_input "a" "summarize" "" ≠ cache_key_for_input "b" "summarize" "" := by
  have h : sha256_text "a" ≠ sha256_text "b" := by decide
  exact ⟨h, cache_key_injective_on_content "summarize" "" "a" "b" h⟩

/-- C4: the `/qa` cache key is derived from `context + question` with no
separator, so the distinct payloads `("ab", "c")` and `("a", "bc")` share a
key, and the answer cached for the first is served (`cached = true`) for the
second. -/
theorem qa_key_aliasing :
    (("ab" : String), ("c" : String)) ≠ (("a" : String), ("bc" : String)) ∧
    ("ab" ++ "c" : String) = "a" ++ "bc" ∧
    qa (constAdapters "r2") (qa (constAdapters "r1") [] 0 ⟨"ab", "c"⟩).2 0 ⟨"a", "bc"⟩ =
      (.ok ⟨"qa", true, "r1"⟩, (qa (constAdapters "r1") [] 0 ⟨"ab", "c"⟩).2) := by
  refine ⟨by decide, by decide, ?_⟩
  show handle (constAdapters "r2")
      (handle (constAdapters "r1") [] 0 (.qa ⟨"ab", "c"⟩)).2 0 (.qa ⟨"a", "bc"⟩) =
    (.ok ⟨"qa", true, "r1"⟩, (handle (constAdapters "r1") [] 0 (.qa ⟨"ab", "c"⟩)).2)
  have h1 := handle_miss_ok (constAdapters "r1") [] 0 (.qa ⟨"ab", "c"⟩) "r1" rfl rfl
  rw [h1]
  have hkey : keyOf (Request.qa ⟨"a", "bc"⟩) = keyOf (Request.qa ⟨"ab", "c"⟩) := by
    have hs : ("a" ++ "bc" : String) = "ab" ++ "c" := by decide
    simp [keyOf, hs]
  have hget : storeGet (storeSetex [] 0 (keyOf (Request.qa ⟨"ab", "c"⟩)) CACHE_TTL "r1") 0
      (keyOf (Request.qa ⟨"a", "bc"⟩)) = some "r1" := by
    rw [hkey, storeGet_setex_self]
    simp [CACHE_TTL]
  have htr : truthy (storeGet (storeSetex [] 0 (keyOf (Request.qa ⟨"ab", "c"⟩)) CACHE_TTL "r1") 0
      (keyOf (Request.qa ⟨"a", "bc"⟩))) = true := by
    rw [hget]
    rfl
  rw [handle_hit (constAdapters "r2") _ 0 (.qa ⟨"a", "bc"⟩) htr, hget]
  rfl


/-- The cache-key shape exactly as the spec words it (section 4.1): task
identifier, modifier and content fingerprint joined by the ":" delimiter,
with no further components. -/
def spec_cache_key (task modifier content : String) : String :=
  task ++ ":" ++ modifier ++ ":" ++ sha256_text content

/-- C7 (amended): `cache_key_for_input` is pure, and its output is the fixed
namespace literal "cache" followed by the task identifier, the modifier and
the 64-character lowercase-hex SHA-256 digest of the content, joined by the
":" delimiter; the delimiter occurs in none of the task or modifier values
the handlers use. -/
theorem cache_key_shape (task extra content : String) :
    cache_key_for_input content task extra = cache_key_for_input content task extra ∧
    cache_key_for_input content task extra = "cache:" ++ spec_cache_key task extra content ∧
    (sha256_text content).length = 64 ∧
    (sha256_text content).data.all isHexChar = true ∧
    (':' ∉ "summarize".data ∧ ':' ∉ "qa".data ∧ ':' ∉ "rewrite".data ∧
      ':' ∉ "".data ∧ ':' ∉ "formal".data ∧ ':' ∉ "informal".data) := by
  refine ⟨rfl, ?_, sha256_text_length content, ?_, by decide⟩
  · simp [cache_key_for_input, spec_cache_key, String.append_assoc]
  · exact List.all_eq_true.mpr (fun c hc => sha256_text_isHexChar content c hc)

/-- C7 (counterexample): the key is not just task, modifier and digest joined
by the delimiter — the "cache" namespace component precedes them, so the
produced key differs from the spec-worded shape (witnessed by its length). -/
theorem cache_key_shape_counterexample :
    cache_key_for_input "x" "t" "m" ≠ spec_cache_key "t" "m" "x" := by
  intro h
  have hlen := congrArg String.length h
  simp only [cache_key_for_input, spec_cache_key, String.length_append,
    sha256_text_length] at hlen
  exact absurd hlen (by decide)

theorem fullSync_validation (tt : TaskType) (p : Payload) (e : String)
    (h : validateOnly tt p = .error e) (A : Adapters) (σ : Store) (now : Nat) :
    fullSync A σ now tt p = (.error (.validation e), σ) := by
  cases tt with
  | summarize =>
    simp only [validateOnly] at h
    cases hp : parseSummarize p with
    | ok v => rw [hp] at h; simp [Except.map] at h
    | error e' =>
      rw [hp] at h
      simp [Except.map] at h
      subst h
      simp [fullSync, hp]
  | qa =>
    simp only [validateOnly] at h
    cases hp : parseQA p with
    | ok v => rw [hp] at h; simp [Except.map] at h
    | error e' =>
      rw [hp] at h
      simp [Except.map] at h
      subst h
      simp [fullSync, hp]
  | rewrite =>
    simp only [validateOnly] at h
    cases hp : parseRewrite p with
    | ok v => rw [hp] at h; simp [Except.map] at h
    | error e' =>
      rw [hp] at h
      simp [Except.map] at h
      subst h
      simp [fullSync, hp]

/-- C9 (amended): a synchronous request with a malformed payload is rejected
as a client error before any cache access or inference call (the store is
returned untouched and no adapter is consulted); job submission, by
contrast, validates only the task type: any payload is enqueued as given,
and a missing required field only surfaces when the worker later runs
`process_genai_task`. -/
theorem validation_boundary :
    (∀ tt p e A σ now, validateOnly tt p = .error e →
      fullSync A σ now tt p = (.error (.validation e), σ)) ∧
    (∀ σ now js tt p,
      (submit_job σ now js tt p).1 = ⟨mkJobId js.next, "queued"⟩ ∧
      fetchJob (submit_job σ now js tt p).2.2 (mkJobId js.next) =
        some ⟨taskTypeStr tt, p, "queued", none⟩) ∧
    (∀ A, process_genai_task A "summarize" [] = .error "KeyError: text") := by
  refine ⟨fun tt p e A σ now h => fullSync_validation tt p e h A σ now,
    fun σ now js tt p => ⟨rfl, ?_⟩, fun A => rfl⟩
  simp [submit_job, enqueue, fetchJob, fetchJob.go]

theorem validation_boundary_witness :
    fullSync (constAdapters "s") [] 0 .summarize [] =
      (.error (.validation "field required: text"), []) ∧
    (submit_job [] 0 ⟨[], 0⟩ .summarize []).1 = ⟨mkJobId 0, "queued"⟩ :=
  ⟨validation_boundary.1 .summarize [] "field required: text" (constAdapters "s") [] 0 rfl,
    (validation_boundary.2.1 [] 0 ⟨[], 0⟩ .summarize []).1⟩

/-- C9 (counterexample): a summarize submission whose payload lacks the
required "text" field is not rejected before work happens: it is enqueued
with status "queued", and the error only arises when the worker later runs
`process_genai_task` on the stored payload. -/
theorem submit_validation_counterexample :
    parseSummarize [] = .error "field required: text" ∧
    mkJobId 0 = "job-0" ∧
    (submit_job [] 0 ⟨[], 0⟩ .summarize []).1 = ⟨mkJobId 0, "queued"⟩ ∧
    fetchJob (submit_job [] 0 ⟨[], 0⟩ .summarize []).2.2 (mkJobId 0) =
      some ⟨"summarize", [], "queued", none⟩ ∧
    process_genai_task (constAdapters "s") "summarize" [] = .error "KeyError: text" :=
  ⟨rfl, by decide, rfl, by simp [submit_job, enqueue, fetchJob, fetchJob.go, taskTypeStr], rfl⟩

end FixItApp
